import Mathlib

/-!
Verification of the Auth_sprint_1 token-lifecycle and authorization core.

The Python source is shallowly embedded: pure service methods become Lean
functions, FastAPI route handlers become functions from their inputs to an
explicit result type, and the JWT wire format is modelled symbolically (a
signature is the pair of the signing secret and the signed payload, so
signature verification succeeds exactly for the secret and payload the token
was minted with).  Time is a `Nat` of seconds.  UUIDs and e-mail addresses are
opaque strings.
-/

namespace AuthSprint

/-- A role as held by a user (src/models + role_service): a name, a set of
permission strings and an optional description. -/
structure Role where
  name : String
  permissions : List String
  description : Option String
  deriving Repr, DecidableEq

/-- A user record (the `User` db model is absent from src; fields are the ones
the src services and routers read: `id`, `email`, `password_hash`,
`is_active`/`is_superuser` from the pydantic `UserBase`, `roles` and
`entitlements` read by the refresh route). -/
structure User where
  id : String
  email : String
  password_hash : String
  is_active : Bool
  is_superuser : Bool
  roles : List Role
  entitlements : List String
  deriving Repr, DecidableEq

/-- JWT payload as built by src/services/token_service.py.  Access tokens set
`sub`, `email`, `roles`, `entitlements`, `exp` and leave `type` absent; refresh
tokens set `sub`, `type = "refresh"`, `exp`.  Optional fields model absent JSON
keys. -/
structure Payload where
  sub : String
  email : Option String
  type : Option String
  roles : Option (List String)
  entitlements : Option (List String)
  exp : Nat
  deriving Repr, DecidableEq

/-- The token wire form: either an unparseable blob, or a parsed payload
carrying a symbolic signature (the pair of signing secret and signed payload).
The constant JOSE header (algorithm identifier, fixed by configuration) is
elided. -/
inductive Wire where
  | malformed (raw : String)
  | signed (payload : Payload) (sig : String × Payload)
  deriving Repr, DecidableEq

/-- Symbolic MAC: signing a payload with a secret yields the pair of both.
Verification (`sig = mac secret payload`) then succeeds exactly when the token
was produced with that secret over that payload, which is the idealised
contract of the HMAC used by the `jose` library. -/
def mac (secret : String) (p : Payload) : String × Payload := (secret, p)

/-- `jose` `jwt.encode`: serialize the payload and sign it with the secret. -/
def jwtEncode (p : Payload) (secret : String) : Wire :=
  Wire.signed p (mac secret p)

/-- Modelled from the spec: the `jose` `jwt.decode` that
src/services/token_service.py delegates to is library code, embedded per spec
section 4.1 — verify the signature, check expiry (`now >= exp` is expired),
fail on an unparseable wire form, and only then surface the payload. -/
def jwtDecode (w : Wire) (secret : String) (now : Nat) : Option Payload :=
  match w with
  | Wire.malformed _ => none
  | Wire.signed p s =>
      if s = mac secret p then
        if now ≥ p.exp then none else some p
      else none

/-- Configuration values read by the src services.  `JWT_SECRET` is the single
secret used by src/services/token_service.py (via the `services.settings`
module); `JWT_ACCESS_SECRET` / `JWT_REFRESH_SECRET` are the distinct secrets
declared in src/config/settings.py. -/
structure Settings where
  JWT_SECRET : String
  JWT_ACCESS_SECRET : String
  JWT_REFRESH_SECRET : String
  ACCESS_TOKEN_EXPIRE_MIN : Nat
  REFRESH_TOKEN_EXPIRE_DAYS : Nat
  deriving Repr, DecidableEq

namespace TokenService

/-- src/services/token_service.py `create_access_token`: payload
`{sub, email, roles, entitlements, exp = now + ACCESS_TOKEN_EXPIRE_MIN minutes}`
signed with `settings.JWT_SECRET`. -/
def create_access_token (s : Settings) (now : Nat) (user : User)
    (roles : List String) (entitlements : List String) : Wire :=
  jwtEncode
    { sub := user.id
      email := some user.email
      type := none
      roles := some roles
      entitlements := some entitlements
      exp := now + s.ACCESS_TOKEN_EXPIRE_MIN * 60 }
    s.JWT_SECRET

/-- src/services/token_service.py `create_refresh_token`: payload
`{sub, type = "refresh", exp = now + REFRESH_TOKEN_EXPIRE_DAYS days}` signed
with the same `settings.JWT_SECRET`. -/
def create_refresh_token (s : Settings) (now : Nat) (user : User) : Wire :=
  jwtEncode
    { sub := user.id
      email := none
      type := some "refresh"
      roles := none
      entitlements := none
      exp := now + s.REFRESH_TOKEN_EXPIRE_DAYS * 86400 }
    s.JWT_SECRET

/-- src/services/token_service.py `decode`: `jwt.decode` with the single
`settings.JWT_SECRET`, catching every `JWTError` and returning `None` —
all failure modes collapse to `none`. -/
def decode (s : Settings) (w : Wire) (now : Nat) : Option Payload :=
  jwtDecode w s.JWT_SECRET now

/-- Modelled from the spec: `TokenService.decode_refresh` is called by the
refresh route in src/api/v1/auth_router.py but its definition is absent from
src.  Per spec section 4.3 it decodes the presented refresh token and rejects
kind ≠ refresh; like the src `decode` and `create_refresh_token` snapshots it
operates with the single shared `JWT_SECRET`. -/
def decode_refresh (s : Settings) (now : Nat) (w : Wire) : Option Payload :=
  match jwtDecode w s.JWT_SECRET now with
  | none => none
  | some p => if p.type = some "refresh" then some p else none

/-- Modelled from the spec: `TokenService.create_token_pair` is called by the
login and refresh routes but absent from src.  Per spec section 4.3
(`issue_pair`) it mints an access token and a refresh token for the user. -/
def create_token_pair (s : Settings) (now : Nat) (user : User)
    (roles : List String) (entitlements : List String) : Wire × Wire :=
  (create_access_token s now user roles entitlements,
   create_refresh_token s now user)

end TokenService

/-- Extract the secret component of a token's symbolic signature. -/
def Wire.sigSecret : Wire → Option String
  | Wire.malformed _ => none
  | Wire.signed _ sig => some sig.1

/-- Whether the wire token's kind discriminator marks an access token: in the
payloads produced by the src token service, access tokens carry no `type`
field, refresh tokens carry `type = "refresh"`. -/
def Wire.kindIsAccess : Wire → Bool
  | Wire.malformed _ => false
  | Wire.signed p _ => p.type.isNone

/-- Outcome of the `/auth/refresh` route: a fresh token pair, HTTP 401
("Invalid refresh token"), or an unhandled server error (the route dereferences
a missing user). -/
inductive RotateResult where
  | ok (access : Wire) (refresh : Wire)
  | unauthorized
  | serverError
  deriving Repr, DecidableEq

def RotateResult.isOk : RotateResult → Bool
  | RotateResult.ok _ _ => true
  | _ => false

/-- src/api/v1/auth_router.py `refresh_token` route: decode the refresh token
(any failure → 401), look the user up by the token's `sub`, collect the user's
role names and entitlements, and mint a brand-new pair.  No revocation store is
consulted and no rotation state is written — the route is a pure function of
its inputs. -/
def refresh_token (s : Settings) (repo : String → Option User) (now : Nat)
    (r : Wire) : RotateResult :=
  match TokenService.decode_refresh s now r with
  | none => RotateResult.unauthorized
  | some p =>
      match repo p.sub with
      | none => RotateResult.serverError
      | some u =>
          RotateResult.ok
            (TokenService.create_access_token s now u (u.roles.map Role.name)
              u.entitlements)
            (TokenService.create_refresh_token s now u)

/-- src/api/v1/auth_router.py `logout` route: the body is a single `return
{"detail": "Logged out"}` — no token is decoded, no state is touched. -/
def logout (_r : Wire) : String := "Logged out"

/-- Result of the modelled `verify_access`: the decoded claim set, the
`InvalidToken` rejection for a wrong token kind, or a propagated decode
failure. -/
inductive VerifyResult where
  | ok (p : Payload)
  | invalidToken
  | decodeFailed
  deriving Repr, DecidableEq

/-- Modelled from the spec: `TokenService.verify_access` is called by
`get_current_user` in src/security/auth.py but its definition is absent from
src.  Per spec section 4.3 it decodes the presented token with the access
secret, rejects kind ≠ access with `InvalidToken`, and otherwise returns the
claim set; decode failures propagate as such. -/
def verify_access (s : Settings) (now : Nat) (w : Wire) : VerifyResult :=
  match jwtDecode w s.JWT_ACCESS_SECRET now with
  | none => VerifyResult.decodeFailed
  | some p => if p.type.isNone then VerifyResult.ok p else VerifyResult.invalidToken

def VerifyResult.isOk : VerifyResult → Bool
  | VerifyResult.ok _ => true
  | _ => false

/-- Result of the `require_permissions` checker in src/security/auth.py:
either the check passes (`return True`) or an HTTP 403 is raised naming the
first missing permission. -/
inductive PermCheck where
  | allowed
  | forbidden (perm : String)
  deriving Repr, DecidableEq

/-- src/security/auth.py `require_permissions` checker body: the user's
permission list is computed first (`users.get_user_permissions`, passed here as
a value since its definition is absent from src), then superusers bypass every
check, and otherwise the first required permission not held raises 403. -/
def require_permissions (required : List String) (permissions : List String)
    (current_user : User) : PermCheck :=
  if current_user.is_superuser then PermCheck.allowed
  else
    match required.find? (fun perm => !(permissions.contains perm)) with
    | some perm => PermCheck.forbidden perm
    | none => PermCheck.allowed

/-- src/services/user_service.py `UserService.authenticate`: look the user up
by e-mail (`repo.get_by_email`, passed as a function since the repository is
absent from src), return `None` if absent, return `None` if the password hash
does not verify (`hasher.verify_password`, likewise passed as a function per
the spec's external `PasswordHasher` capability), otherwise return the user.
The `is_active` flag is never consulted. -/
def authenticate (repo : String → Option User) (verify : String → String → Bool)
    (email : String) (password : String) : Option User :=
  match repo email with
  | none => none
  | some user => if verify password user.password_hash then some user else none

/-- src/services/role_service.py `RoleService.assign_role`: append the role to
the user's role list only when it is not already a member. -/
def assign_role (user : User) (role : Role) : User :=
  if role ∈ user.roles then user
  else { user with roles := user.roles ++ [role] }

/-! Concrete fixtures used by witnesses and counterexamples. -/

/-- A concrete settings value: the shared signing secret is `"s"`, while the
(unused) config-level access/refresh secrets are distinct. -/
def s0 : Settings :=
  { JWT_SECRET := "s"
    JWT_ACCESS_SECRET := "a"
    JWT_REFRESH_SECRET := "r"
    ACCESS_TOKEN_EXPIRE_MIN := 15
    REFRESH_TOKEN_EXPIRE_DAYS := 30 }

/-- A concrete active, non-superuser user. -/
def u0 : User :=
  { id := "u0"
    email := "u0@example.com"
    password_hash := "pw"
    is_active := true
    is_superuser := false
    roles := []
    entitlements := [] }

/-- A concrete user directory holding exactly `u0`. -/
def repo0 (i : String) : Option User := if i = "u0" then some u0 else none

/-- The refresh token minted for `u0` at time 0. -/
def r0 : Wire := TokenService.create_refresh_token s0 0 u0

/-- A refresh-kind payload, signed below once correctly and once with a wrong
secret. -/
def pGood : Payload :=
  { sub := "u0", email := none, type := some "refresh", roles := none
    entitlements := none, exp := 50 }

/-- A payload that is already expired at time 20. -/
def pExp : Payload :=
  { sub := "u0", email := none, type := some "refresh", roles := none
    entitlements := none, exp := 10 }

/-- A structurally fine token whose signature was made with the wrong secret. -/
def wBadSig : Wire := Wire.signed pGood (mac "other" pGood)

/-- A correctly signed token that is expired at time 20. -/
def wExpired : Wire := Wire.signed pExp (mac "s" pExp)

/-- A refresh-kind payload signed with the access secret of `s0`. -/
def p4 : Payload :=
  { sub := "u0", email := none, type := some "refresh", roles := none
    entitlements := none, exp := 10 }

/-- `p4` on the wire, signed with the access secret `"a"` of `s0`. -/
def w4 : Wire := Wire.signed p4 (mac "a" p4)

/-- A concrete inactive user whose stored hash equals the presented password
under `verifyEq`. -/
def uInactive : User :=
  { id := "u1"
    email := "inactive@example.com"
    password_hash := "pw"
    is_active := false
    is_superuser := false
    roles := []
    entitlements := [] }

/-- A directory holding exactly the inactive user. -/
def repoInactive (i : String) : Option User :=
  if i = "inactive@example.com" then some uInactive else none

/-- A concrete password verifier: the plaintext must equal the stored hash. -/
def verifyEq (password hash : String) : Bool := password = hash

/-- A concrete superuser holding no roles and no permissions. -/
def uSuper : User :=
  { id := "root"
    email := "root@example.com"
    password_hash := "pw"
    is_active := true
    is_superuser := true
    roles := []
    entitlements := [] }

/-- A concrete role. -/
def rAdmin : Role :=
  { name := "admin", permissions := ["manage:users"], description := none }

/-- A concrete user already holding `rAdmin`. -/
def uWithAdmin : User :=
  { id := "u2"
    email := "u2@example.com"
    password_hash := "pw"
    is_active := true
    is_superuser := false
    roles := [rAdmin]
    entitlements := [] }

/-! The claims. -/

/-- Claim C1 — code-bug evidence.  The spec requires that after a successful
`rotate(r0)` every later `rotate(r0)` fails with `ReplayDetected`.  The refresh
route in src consults no rotation state and writes none, so rotation of the
concrete token `r0` succeeds at time 100 and the repeated rotation of the very
same token at the later time 200 succeeds again; the route cannot produce a
replay failure at all. -/
theorem rotate_replay_not_detected :
    (refresh_token s0 repo0 100 r0).isOk = true ∧
    (refresh_token s0 repo0 200 r0).isOk = true := by
  constructor <;> decide

/-- Claim C2 — code-bug evidence.  The spec requires distinct access- and
refresh-signing secrets, but for every settings value, user and claim snapshot
the src token service signs the access token and the refresh token with the
same shared `JWT_SECRET`; the distinct `JWT_ACCESS_SECRET` /
`JWT_REFRESH_SECRET` of src/config/settings.py are never used. -/
theorem access_and_refresh_share_secret :
    ∀ (s : Settings) (now : Nat) (u : User) (roles entitlements : List String),
      (TokenService.create_access_token s now u roles entitlements).sigSecret
          = some s.JWT_SECRET ∧
      (TokenService.create_refresh_token s now u).sigSecret
          = some s.JWT_SECRET := by
  intro s now u roles entitlements
  exact ⟨rfl, rfl⟩

/-- Claim C3 — code-bug evidence.  The logout route is a no-op: it returns the
same success detail for every input (so calling it twice never errors), but it
revokes nothing, and rotating the concrete refresh token `r0` after logging it
out still succeeds instead of failing with `Revoked`. -/
theorem logout_noop_rotate_still_succeeds :
    (∀ w : Wire, logout w = "Logged out") ∧
    logout r0 = "Logged out" ∧
    (refresh_token s0 repo0 150 r0).isOk = true := by
  refine ⟨fun w => rfl, rfl, by decide⟩

/-- Claim C4 — confirmed against the spec-modelled `verify_access`: whenever a
presented token decodes under the access secret to a payload whose kind is not
access, the result is `InvalidToken`; and no token whose kind discriminator is
not access (in particular any refresh token) is ever accepted. -/
theorem verify_access_rejects_non_access_kind :
    ∀ (s : Settings) (now : Nat) (w : Wire),
      (∀ p, jwtDecode w s.JWT_ACCESS_SECRET now = some p → p.type.isNone = false →
        verify_access s now w = VerifyResult.invalidToken) ∧
      (Wire.kindIsAccess w = false → (verify_access s now w).isOk = false) := by
  intro s now w
  constructor
  · intro p hdec htype
    unfold verify_access
    rw [hdec]
    simp [htype]
  · intro hk
    unfold verify_access
    cases w with
    | malformed raw => simp [jwtDecode, VerifyResult.isOk]
    | signed p sig =>
        simp only [Wire.kindIsAccess] at hk
        simp only [jwtDecode]
        by_cases hs : sig = mac s.JWT_ACCESS_SECRET p
        · by_cases he : now ≥ p.exp
          · simp [hs, he, VerifyResult.isOk]
          · simp [hs, he, hk, VerifyResult.isOk]
        · simp [hs, VerifyResult.isOk]

/-- Witness for C4: the concrete refresh-kind token `w4`, signed with the
access secret of `s0` and unexpired at time 5, is rejected with
`InvalidToken`. -/
theorem verify_access_rejects_non_access_kind_witness :
    verify_access s0 5 w4 = VerifyResult.invalidToken :=
  (verify_access_rejects_non_access_kind s0 5 w4).1 p4 (by decide) (by decide)

/-- Claim C5 — counterexample.  The claim says `authenticate` fails when the
principal is inactive; but on the concrete inactive user, stored in the
directory with a hash matching the presented password, `authenticate` succeeds
and returns the user — the active flag is never consulted. -/
theorem authenticate_accepts_inactive_user :
    uInactive.is_active = false ∧
    authenticate repoInactive verifyEq "inactive@example.com" "pw"
      = some uInactive := by
  constructor <;> decide

/-- Claim C5 — amended.  `authenticate` fails exactly when the identifier
matches no principal or the password hash verification returns false (the
active flag is not consulted); on success it returns the directory's principal
for that identifier, whose hash verified. -/
theorem authenticate_fails_iff_absent_or_bad_password :
    ∀ (repo : String → Option User) (verify : String → String → Bool)
      (email password : String),
      (authenticate repo verify email password = none ↔
        repo email = none ∨
          ∃ u, repo email = some u ∧ verify password u.password_hash = false) ∧
      (∀ u, authenticate repo verify email password = some u →
        repo email = some u ∧ verify password u.password_hash = true) := by
  intro repo verify email password
  unfold authenticate
  cases h : repo email with
  | none => simp
  | some u =>
      by_cases hv : verify password u.password_hash
      · simp [hv]
      · simp only [Bool.not_eq_true] at hv
        simp [hv]

/-- Witness for the amended C5: looking up an identifier absent from the
concrete directory fails. -/
theorem authenticate_fails_iff_absent_or_bad_password_witness :
    authenticate repo0 verifyEq "nobody@example.com" "pw" = none :=
  (authenticate_fails_iff_absent_or_bad_password repo0 verifyEq
      "nobody@example.com" "pw").1.mpr (Or.inl (by decide))

/-- Claim C6 — counterexample.  The claim says `decode` distinguishes an
`InvalidSignature` failure from an `Expired` failure; at time 20 the concrete
token `wBadSig` fails only its signature check (it is not expired) and
`wExpired` is correctly signed but expired, yet the src `decode` returns the
very same result (`none`) for both, so the failure modes are not
distinguished. -/
theorem decode_failure_modes_indistinguishable :
    (wBadSig = Wire.signed pGood (mac "other" pGood) ∧
      mac "other" pGood ≠ mac s0.JWT_SECRET pGood ∧ 20 < pGood.exp) ∧
    (wExpired = Wire.signed pExp (mac s0.JWT_SECRET pExp) ∧ 20 ≥ pExp.exp) ∧
    TokenService.decode s0 wBadSig 20 = TokenService.decode s0 wExpired 20 ∧
    TokenService.decode s0 wBadSig 20 = none := by
  refine ⟨⟨by decide, by decide, by decide⟩, ⟨by decide, by decide⟩,
    by decide, by decide⟩

/-- Claim C6 — amended.  The src `decode` collapses every failure mode: it
returns `none` when the wire form is malformed, when the signature does not
match the shared secret, and when `now ≥ exp`, without distinguishing the
cause; on a correctly signed, unexpired token it returns the full claim
set. -/
theorem decode_collapses_all_failures :
    ∀ (s : Settings) (now : Nat) (p : Payload) (sig : String × Payload)
      (raw : String),
      TokenService.decode s (Wire.malformed raw) now = none ∧
      (sig ≠ mac s.JWT_SECRET p →
        TokenService.decode s (Wire.signed p sig) now = none) ∧
      (now ≥ p.exp → TokenService.decode s (Wire.signed p sig) now = none) ∧
      (sig = mac s.JWT_SECRET p → now < p.exp →
        TokenService.decode s (Wire.signed p sig) now = some p) := by
  intro s now p sig raw
  refine ⟨rfl, ?_, ?_, ?_⟩
  · intro hs
    simp [TokenService.decode, jwtDecode, hs]
  · intro he
    by_cases hs : sig = mac s.JWT_SECRET p
    · simp [TokenService.decode, jwtDecode, hs, he]
    · simp [TokenService.decode, jwtDecode, hs]
  · intro hs hlt
    simp [TokenService.decode, jwtDecode, hs, Nat.not_le.mpr hlt]

/-- Witness for the amended C6: the concrete badly signed token decodes to
`none`. -/
theorem decode_collapses_all_failures_witness :
    TokenService.decode s0 (Wire.signed pGood (mac "other" pGood)) 20 = none :=
  (decode_collapses_all_failures s0 20 pGood (mac "other" pGood) "x").2.1
    (by decide)

/-- Claim C7 — confirmed.  For every superuser and every required permission
list (empty or not) and every computed permission list, the
`require_permissions` checker returns allowed without raising a 403 and
without reporting any missing permission. -/
theorem superuser_always_allowed :
    ∀ (required permissions : List String) (u : User),
      u.is_superuser = true →
      require_permissions required permissions u = PermCheck.allowed := by
  intro required permissions u h
  unfold require_permissions
  simp [h]

/-- Witness for C7: the concrete superuser with no roles and an empty
permission list passes a non-empty requirement. -/
theorem superuser_always_allowed_witness :
    require_permissions ["manage:users", "manage:roles"] [] uSuper
      = PermCheck.allowed :=
  superuser_always_allowed ["manage:users", "manage:roles"] [] uSuper (by decide)

/-- Claim C8 — confirmed against the spec-modelled codec.  Decoding the token
produced by encoding any claim set with the same secret, at any time before
the expiry timestamp, yields the original claim set (timestamps are already
integral seconds in the model, so truncation is the identity). -/
theorem encode_decode_roundtrip :
    ∀ (p : Payload) (secret : String) (now : Nat),
      now < p.exp → jwtDecode (jwtEncode p secret) secret now = some p := by
  intro p secret now h
  simp [jwtEncode, jwtDecode, Nat.not_le.mpr h]

/-- Witness for C8: the concrete payload `pGood` round-trips through the codec
under the secret `"k"` at time 0. -/
theorem encode_decode_roundtrip_witness :
    jwtDecode (jwtEncode pGood "k") "k" 0 = some pGood :=
  encode_decode_roundtrip pGood "k" 0 (by decide)

/-- Claim C9 — confirmed.  `authenticate` reveals nothing about which failure
occurred: any call failing because the identifier is unknown and any call
failing because the stored hash does not verify produce identical results
(both `none`), even across different directories and verifiers. -/
theorem authenticate_failure_indistinguishable :
    ∀ (repo1 repo2 : String → Option User) (ver1 ver2 : String → String → Bool)
      (e1 p1 e2 p2 : String) (u : User),
      repo1 e1 = none →
      repo2 e2 = some u → ver2 p2 u.password_hash = false →
      authenticate repo1 ver1 e1 p1 = authenticate repo2 ver2 e2 p2 := by
  intro repo1 repo2 ver1 ver2 e1 p1 e2 p2 u h1 h2 h3
  unfold authenticate
  rw [h1, h2]
  simp [h3]

/-- Witness for C9: an unknown identifier against `repo0` and a wrong password
for the stored user `u0` yield the same observable outcome. -/
theorem authenticate_failure_indistinguishable_witness :
    authenticate repo0 verifyEq "nobody2@example.com" "x"
      = authenticate repo0 verifyEq "u0" "bad" :=
  authenticate_failure_indistinguishable repo0 repo0 verifyEq verifyEq
    "nobody2@example.com" "x" "u0" "bad" u0 (by decide) (by decide) (by decide)

/-- Claim C10 — confirmed.  `assign_role` is idempotent: assigning a role the
user already holds returns the user unchanged (no duplicate membership is
created), and assigning the same role twice equals assigning it once. -/
theorem assign_role_idempotent :
    ∀ (u : User) (r : Role),
      (r ∈ u.roles → assign_role u r = u) ∧
      assign_role (assign_role u r) r = assign_role u r := by
  intro u r
  constructor
  · intro h
    unfold assign_role
    simp [h]
  · unfold assign_role
    by_cases h : r ∈ u.roles
    · simp [h]
    · simp [h]

/-- Witness for C10: re-assigning the concrete role `rAdmin` to the user who
already holds it leaves the user unchanged. -/
theorem assign_role_idempotent_witness :
    assign_role uWithAdmin rAdmin = uWithAdmin :=
  (assign_role_idempotent uWithAdmin rAdmin).1 (by decide)

end AuthSprint
